import Mathlib

/-!
Verification of `ModifierNode`
(`src/modules/tracktion_engine/playback/graph/tracktion_ModifierNode.cpp`).

The node hosts one `Modifier` (effect unit) inside a pull-based audio/MIDI
graph.  Audio blocks are modelled as lists of channels, each channel a list
of rational samples; `double` values are modelled as `ℚ`; MIDI message
arrays as a list of abstract events plus the `isAllNotesOff` flag.
Collaborator classes (`Modifier`, `TrackMuteState`, `PlayHeadState`,
`InputProvider`, `MidiMessageArray`, `PluginRenderContext`) are declared in
headers that are not part of the sources; their observable behaviour is
modelled from the specification's interface contracts (section 6) and noted
on each definition.
-/

namespace ModifierNodeSpec

/-- An audio block: a list of channels, each channel a list of samples. -/
abbrev AudioBuffer := List (List ℚ)

/-- Number of frames of a buffer (`getNumSamples` / `getNumFrames`). -/
def numFrames (b : AudioBuffer) : ℕ := (b.headD []).length

/-- Modelled from the spec: `MidiMessageArray` (its class is not under
`src/`) is a list of MIDI events together with the `isAllNotesOff` hygiene
flag; events themselves are opaque and modelled as naturals. -/
structure MidiMessageArray where
  events : List ℕ
  isAllNotesOff : Bool
deriving DecidableEq, Repr, Inhabited

/-- Modelled from the spec: `MidiMessageArray::copyFrom` ("replace the
node's scratch MIDI event list with a copy of the upstream's MIDI events")
replaces the whole array, flag included. -/
def MidiMessageArray.copyFrom (_dest source : MidiMessageArray) : MidiMessageArray :=
  source

/-- Modelled from the spec: the mute-state policy contract
(`shouldTrackContentsBeProcessed`, `shouldTrackBeAudible`, `wasJustMuted`),
as the values those queries return for the current block. -/
structure TrackMuteState where
  shouldTrackContentsBeProcessed : Bool
  shouldTrackBeAudible : Bool
  wasJustMuted : Bool
deriving DecidableEq, Repr

/-- Modelled from the spec: the playhead contract — timeline mapping and
playback state for the current block. -/
structure PlayHead where
  referenceSamplePositionToTimelinePosition : ℤ → ℤ
  isPlaying : Bool
  isUserDragging : Bool

/-- Modelled from the spec: `PlayHeadState` wraps the playhead and reports
whether the playhead just jumped discontinuously this block. -/
structure PlayHeadState where
  didPlayheadJump : Bool
  playHead : PlayHead

/-- The ephemeral render context handed to the effect unit
(`PluginRenderContext`, header not under `src/`; field list modelled from
the construction at lines 150-155 and the overwrites at lines 137-144 of
the source, matching section 3 of the spec).  The channel layout
(`canonicalChannelSet`) is identified with its channel count, and the two
MIDI pointer targets are inlined as values. -/
structure PluginRenderContext where
  destBuffer : AudioBuffer
  destBufferChannels : ℕ
  bufferStartSample : ℤ
  bufferNumSamples : ℕ
  bufferForMidiMessages : MidiMessageArray
  midiBufferOffset : ℚ
  editTime : ℚ
  isPlaying : Bool
  isScrubbing : Bool
  isRendering : Bool
  allowBypassedProcessing : Bool
deriving DecidableEq, Repr, Inhabited

/-- The effect unit (`Modifier`, class not under `src/`): the queries the
node makes of it, modelled from the spec's Effect Unit contract.
`audioInputNamesSize` and `midiInputNamesSize` are `getAudioInputNames().size()`
and `getMidiInputNames().size()`; `enabled` is the boolean value of
`enabledParam` (`getBoolParamValue`); `baseClassNeedsInitialising` is the
value that query returns at destruction time; `applyToBuffer` maps the
render context it is given to the new contents of the destination buffer
and of the scratch MIDI list it may mutate through the context's pointers.
`latencySamples` is the unit's `reportedLatencySamples` from the spec's
contract; the node's code never reads it. -/
structure Modifier where
  audioInputNamesSize : ℕ
  midiInputNamesSize : ℕ
  itemID : ℕ
  enabled : Bool
  baseClassNeedsInitialising : Bool
  latencySamples : ℤ
  applyToBuffer : PluginRenderContext → AudioBuffer × MidiMessageArray

/-- `tracktion_graph::NodeProperties` as used by the source. -/
structure NodeProperties where
  hasAudio : Bool
  hasMidi : Bool
  numberOfChannels : ℤ
  latencyNumSamples : ℤ
  nodeID : ℕ
deriving DecidableEq, Repr

/-- The node's state.  The header (not under `src/`) default-initialises
`audioRenderContextProvider` to null, `trackMuteState`/`playHeadState` to
null, `isRendering` to false, `automationAdjustmentTime` to 0 and
`isInitialised` to false, per the spec's data model (section 3): exactly
one of the playhead or the alternate provider is attached, chosen at
construction.  The provider is modelled by the context its `getContext()`
returns. -/
structure ModifierNode where
  modifier : Modifier
  trackMuteState : Option TrackMuteState
  playHeadState : Option PlayHeadState
  audioRenderContextProvider : Option PluginRenderContext
  isRendering : Bool
  sampleRate : ℚ
  automationAdjustmentTime : ℚ
  isInitialised : Bool

/-- `tracktion_graph::sampleToTime` (not under `src/`): modelled from the
spec's `toSeconds(samples, sampleRate)` as samples divided by the rate. -/
def sampleToTime (samplePosition : ℤ) (sampleRate : ℚ) : ℚ :=
  (samplePosition : ℚ) / sampleRate

/-- `ModifierNode::initialiseModifier` (lines 126-131): records the sample
rate, initialises the unit, sets `isInitialised`. -/
def initialiseModifier (n : ModifierNode) (sampleRateToUse : ℚ) : ModifierNode :=
  { n with sampleRate := sampleRateToUse, isInitialised := true }

/-- First constructor (lines 17-31): mute state, playhead and rendering
flag attached; no alternate provider.  The playhead argument is a C++
reference, hence always present. -/
def construct1 (modifierToProcess : Modifier) (sampleRateToUse : ℚ)
    (trackMuteStateToUse : Option TrackMuteState)
    (playHeadStateToUse : PlayHeadState) (rendering : Bool) : ModifierNode :=
  initialiseModifier
    { modifier := modifierToProcess
      trackMuteState := trackMuteStateToUse
      playHeadState := some playHeadStateToUse
      audioRenderContextProvider := none
      isRendering := rendering
      sampleRate := 0
      automationAdjustmentTime := 0
      isInitialised := false } sampleRateToUse

/-- Second constructor (lines 33-44): alternate context provider attached;
no mute state, no playhead; rendering flag keeps its header default. -/
def construct2 (modifierToProcess : Modifier) (sampleRateToUse : ℚ)
    (contextProvider : PluginRenderContext) : ModifierNode :=
  initialiseModifier
    { modifier := modifierToProcess
      trackMuteState := none
      playHeadState := none
      audioRenderContextProvider := some contextProvider
      isRendering := false
      sampleRate := 0
      automationAdjustmentTime := 0
      isInitialised := false } sampleRateToUse

/-- The destructor's guard (lines 46-50): `baseClassDeinitialise` is called
iff the node initialised the unit and the unit does not currently need
initialising (i.e. it is still initialised). -/
def destructorCallsDeinitialise (n : ModifierNode) : Bool :=
  n.isInitialised && !n.modifier.baseClassNeedsInitialising

/-- How many times destroying the node invokes `baseClassDeinitialise`;
the destructor is the only site in the node that calls it. -/
def deinitialiseCallCount (n : ModifierNode) : ℕ :=
  if destructorCallsDeinitialise n then 1 else 0

/-- `ModifierNode::getNodeProperties` (lines 53-63): widens the upstream
properties by the unit's port counts and takes the identity from the unit;
latency is passed through from upstream untouched. -/
def getNodeProperties (n : ModifierNode) (upstream : NodeProperties) : NodeProperties :=
  { upstream with
      numberOfChannels :=
        max upstream.numberOfChannels (n.modifier.audioInputNamesSize : ℤ)
      hasAudio := upstream.hasAudio || decide (0 < n.modifier.audioInputNamesSize)
      hasMidi := upstream.hasMidi || decide (0 < n.modifier.midiInputNamesSize)
      nodeID := n.modifier.itemID }

/-- `ModifierNode::prepareToPlay` (lines 65-74).  The sample-rate equality
assertion is a contract check on `info` (which is otherwise unused, hence
not a parameter here); when the aggregated latency is positive the
automation adjustment is set to minus that latency in seconds. -/
def prepareToPlay (n : ModifierNode) (upstreamProps : NodeProperties) : ModifierNode :=
  if 0 < (getNodeProperties n upstreamProps).latencyNumSamples then
    { n with automationAdjustmentTime :=
        -sampleToTime (getNodeProperties n upstreamProps).latencyNumSamples n.sampleRate }
  else n

/-- The copy-through step (lines 86-94): copy
`min(inputChannels, outputChannels)` channels of the upstream block into
the destination, leaving any further destination channels as they were. -/
def copyThrough : AudioBuffer → AudioBuffer → AudioBuffer
  | _, [] => []
  | [], outs => outs
  | inChan :: ins, _ :: outs => inChan :: copyThrough ins outs

/-- The playhead-jump step (lines 103-104): a discontinuous jump forces the
scratch list's all-notes-off flag. -/
def jumpStep (phs : Option PlayHeadState) (m : MidiMessageArray) : MidiMessageArray :=
  match phs with
  | none => m
  | some p => if p.didPlayheadJump then { m with isAllNotesOff := true } else m

/-- The mute-policy step (lines 106-115): when track contents should not be
processed, `shouldProcess` is restricted by audibility, and a just-muted
edge forces the all-notes-off flag. -/
def muteStep (tms : Option TrackMuteState) (shouldProcess : Bool)
    (m : MidiMessageArray) : Bool × MidiMessageArray :=
  match tms with
  | none => (shouldProcess, m)
  | some t =>
      if !t.shouldTrackContentsBeProcessed then
        (shouldProcess && t.shouldTrackBeAudible,
         if t.wasJustMuted then { m with isAllNotesOff := true } else m)
      else (shouldProcess, m)

/-- The scratch MIDI list as it stands after staging (line 100) and the two
flag-forcing steps (lines 103-115), just before the apply decision. -/
def stagedMidi (n : ModifierNode) (inputMidi : MidiMessageArray) : MidiMessageArray :=
  (muteStep n.trackMuteState n.modifier.enabled (jumpStep n.playHeadState inputMidi)).2

/-- The `shouldProcess` value at the apply decision (lines 101-115). -/
def finalShouldProcess (n : ModifierNode) (inputMidi : MidiMessageArray) : Bool :=
  (muteStep n.trackMuteState n.modifier.enabled (jumpStep n.playHeadState inputMidi)).1

/-- `ModifierNode::getPluginRenderContext` (lines 133-156).  Mode A: the
provider's context with destination buffer, start sample 0, frame count,
scratch MIDI list and MIDI offset 0 overwritten.  Mode B: a fresh context
from the playhead, with the latency-adjusted timeline position.  A node in
neither mode violates the asserted constructor contract; that dead branch
returns an arbitrary context. -/
def getPluginRenderContext (n : ModifierNode) (midi : MidiMessageArray)
    (referenceSamplePosition : ℤ) (destBuffer : AudioBuffer) : PluginRenderContext :=
  match n.audioRenderContextProvider with
  | some providerContext =>
      { providerContext with
          destBuffer := destBuffer
          bufferStartSample := 0
          bufferNumSamples := numFrames destBuffer
          bufferForMidiMessages := midi
          midiBufferOffset := 0 }
  | none =>
      match n.playHeadState with
      | some phs =>
          { destBuffer := destBuffer
            destBufferChannels := destBuffer.length
            bufferStartSample := 0
            bufferNumSamples := numFrames destBuffer
            bufferForMidiMessages := midi
            midiBufferOffset := 0
            editTime :=
              sampleToTime
                (phs.playHead.referenceSamplePositionToTimelinePosition
                  referenceSamplePosition) n.sampleRate
                + n.automationAdjustmentTime
            isPlaying := phs.playHead.isPlaying
            isScrubbing := phs.playHead.isUserDragging
            isRendering := n.isRendering
            allowBypassedProcessing := false }
      | none => default

/-- The upstream node's already-produced output for the block
(`input->getProcessedOutput()`). -/
structure ProcessInputs where
  audio : AudioBuffer
  midi : MidiMessageArray

/-- The block's process context: reference sample range start and the
pre-call contents of the destination buffers. -/
structure ProcessContext where
  refSampleStart : ℤ
  outputAudio : AudioBuffer
  outputMidi : MidiMessageArray

/-- `ModifierNode::process` (lines 76-123): copy-through, stage MIDI, run
the jump and mute steps, conditionally apply the unit on the destination
buffer and scratch list, publish audio and MIDI. -/
def process (n : ModifierNode) (ins : ProcessInputs) (pc : ProcessContext) :
    AudioBuffer × MidiMessageArray :=
  if finalShouldProcess n ins.midi then
    n.modifier.applyToBuffer
      (getPluginRenderContext n (stagedMidi n ins.midi) pc.refSampleStart
        (copyThrough ins.audio pc.outputAudio))
  else
    (copyThrough ins.audio pc.outputAudio, stagedMidi n ins.midi)

/-- The mute-edge condition of lines 108-113: the policy says contents
should not be processed and the mute transition happened this block. -/
def muteEdgeCondition (tms : Option TrackMuteState) : Bool :=
  match tms with
  | none => false
  | some t => !t.shouldTrackContentsBeProcessed && t.wasJustMuted

/-! Concrete collaborators and nodes used to instantiate the theorems. -/

/-- A playhead whose timeline mapping is the identity. -/
def idPlayHead : PlayHead :=
  { referenceSamplePositionToTimelinePosition := fun r => r
    isPlaying := true
    isUserDragging := false }

/-- A playhead state that did not just jump. -/
def stillPlayHeadState : PlayHeadState :=
  { didPlayheadJump := false, playHead := idPlayHead }

/-- A playhead state that just jumped discontinuously. -/
def jumpedPlayHeadState : PlayHeadState :=
  { didPlayheadJump := true, playHead := idPlayHead }

/-- An effect unit `apply` that leaves buffer and MIDI list as handed in. -/
def passApply : PluginRenderContext → AudioBuffer × MidiMessageArray :=
  fun rc => (rc.destBuffer, rc.bufferForMidiMessages)

/-- A unit whose enable parameter is off. -/
def disabledModifier : Modifier :=
  { audioInputNamesSize := 2, midiInputNamesSize := 1, itemID := 7
    enabled := false, baseClassNeedsInitialising := false, latencySamples := 0
    applyToBuffer := passApply }

/-- An enabled unit reporting 5 samples of latency of its own, still
initialised at destruction time. -/
def latencyModifier : Modifier :=
  { audioInputNamesSize := 0, midiInputNamesSize := 0, itemID := 1
    enabled := true, baseClassNeedsInitialising := false, latencySamples := 5
    applyToBuffer := passApply }

/-- A unit already deinitialised by its owner: it reports that it needs
initialising again. -/
def deinitialisedModifier : Modifier :=
  { latencyModifier with baseClassNeedsInitialising := true }

/-- An enabled unit whose `apply` clears the all-notes-off flag on the
scratch MIDI list it is handed. -/
def flagClearingModifier : Modifier :=
  { audioInputNamesSize := 1, midiInputNamesSize := 1, itemID := 3
    enabled := true, baseClassNeedsInitialising := false, latencySamples := 0
    applyToBuffer := fun rc =>
      (rc.destBuffer, { rc.bufferForMidiMessages with isAllNotesOff := false }) }

/-- A node with a disabled unit, no mute policy and no playhead. -/
def skipNode : ModifierNode :=
  { modifier := disabledModifier, trackMuteState := none, playHeadState := none
    audioRenderContextProvider := none, isRendering := false, sampleRate := 2
    automationAdjustmentTime := 0, isInitialised := true }

/-- A mode-B node (playhead attached, no provider) at sample rate 2. -/
def latencyNode : ModifierNode :=
  { modifier := latencyModifier, trackMuteState := none
    playHeadState := some stillPlayHeadState
    audioRenderContextProvider := none, isRendering := true, sampleRate := 2
    automationAdjustmentTime := 0, isInitialised := true }

/-- A mode-B node whose playhead just jumped and whose unit clears the
all-notes-off flag when applied. -/
def jumpNode : ModifierNode :=
  { modifier := flagClearingModifier, trackMuteState := none
    playHeadState := some jumpedPlayHeadState
    audioRenderContextProvider := none, isRendering := false, sampleRate := 1
    automationAdjustmentTime := 0, isInitialised := true }

/-- `jumpNode` with the unit's enable parameter switched off. -/
def jumpNodeDisabled : ModifierNode :=
  { jumpNode with modifier := { flagClearingModifier with enabled := false } }

/-- Upstream properties reporting 3 samples of latency. -/
def upstreamWithLatency : NodeProperties :=
  { hasAudio := true, hasMidi := false, numberOfChannels := 2
    latencyNumSamples := 3, nodeID := 9 }

/-- A render context as returned by an alternate context provider. -/
def providerContext : PluginRenderContext :=
  { destBuffer := [[7]], destBufferChannels := 3, bufferStartSample := 11
    bufferNumSamples := 64
    bufferForMidiMessages := { events := [9], isAllNotesOff := true }
    midiBufferOffset := 5, editTime := 8, isPlaying := true, isScrubbing := true
    isRendering := true, allowBypassedProcessing := true }

/-- A mode-A node built through the provider constructor. -/
def providerNode : ModifierNode := construct2 latencyModifier 4 providerContext

/-- Mute policy on the block of the muting transition. -/
def mutingState : TrackMuteState :=
  { shouldTrackContentsBeProcessed := false, shouldTrackBeAudible := false
    wasJustMuted := true }

/-- Mute policy on a later block while still muted. -/
def heldMuteState : TrackMuteState :=
  { shouldTrackContentsBeProcessed := false, shouldTrackBeAudible := false
    wasJustMuted := false }

/-- `skipNode` with the mute policy of the muting block attached. -/
def mutedNodeN : ModifierNode :=
  { skipNode with trackMuteState := some mutingState }

/-- `skipNode` with the held mute policy of the following blocks attached. -/
def mutedNodeN1 : ModifierNode :=
  { skipNode with trackMuteState := some heldMuteState }

/-! Helper lemmas about the individual processing steps. -/

theorem copyThrough_nil_left (outs : AudioBuffer) : copyThrough [] outs = outs := by
  cases outs <;> rfl

theorem copyThrough_length (ins outs : AudioBuffer) :
    (copyThrough ins outs).length = outs.length := by
  induction ins generalizing outs with
  | nil => rw [copyThrough_nil_left]
  | cons a as ih =>
    cases outs with
    | nil => rfl
    | cons b bs => simp [copyThrough, ih]

theorem copyThrough_getD_lt (ins outs : AudioBuffer) (i : ℕ)
    (h : i < min ins.length outs.length) :
    (copyThrough ins outs).getD i [] = ins.getD i [] := by
  induction ins generalizing outs i with
  | nil => simp at h
  | cons a as ih =>
    cases outs with
    | nil => simp at h
    | cons b bs =>
      cases i with
      | zero => rfl
      | succ j =>
        have hj : j < min as.length bs.length := by
          simp only [List.length_cons, Nat.lt_min] at h ⊢
          omega
        simpa [copyThrough, List.getD_cons_succ] using ih bs j hj

theorem copyThrough_getD_ge (ins outs : AudioBuffer) (i : ℕ)
    (h : min ins.length outs.length ≤ i) :
    (copyThrough ins outs).getD i [] = outs.getD i [] := by
  induction ins generalizing outs i with
  | nil => rw [copyThrough_nil_left]
  | cons a as ih =>
    cases outs with
    | nil => simp [copyThrough]
    | cons b bs =>
      cases i with
      | zero =>
        simp only [List.length_cons] at h
        omega
      | succ j =>
        have hj : min as.length bs.length ≤ j := by
          simp only [List.length_cons] at h
          omega
        simpa [copyThrough, List.getD_cons_succ] using ih bs j hj

theorem copyThrough_zero (ins outs : AudioBuffer)
    (h : min ins.length outs.length = 0) : copyThrough ins outs = outs := by
  cases ins with
  | nil => exact copyThrough_nil_left outs
  | cons a as =>
    cases outs with
    | nil => rfl
    | cons b bs =>
      simp only [List.length_cons] at h
      omega

theorem jumpStep_events (phs : Option PlayHeadState) (m : MidiMessageArray) :
    (jumpStep phs m).events = m.events := by
  cases phs with
  | none => rfl
  | some p => by_cases h : p.didPlayheadJump <;> simp [jumpStep, h]

theorem jumpStep_flag (phs : Option PlayHeadState) (m : MidiMessageArray) :
    (jumpStep phs m).isAllNotesOff
      = (m.isAllNotesOff || phs.elim false PlayHeadState.didPlayheadJump) := by
  cases phs with
  | none => simp [jumpStep]
  | some p => by_cases h : p.didPlayheadJump <;> simp [jumpStep, h]

theorem jumpStep_no_jump (phs : Option PlayHeadState) (m : MidiMessageArray)
    (h : ∀ p, phs = some p → p.didPlayheadJump = false) : jumpStep phs m = m := by
  cases phs with
  | none => rfl
  | some p => simp [jumpStep, h p rfl]

theorem muteStep_events (tms : Option TrackMuteState) (sp : Bool)
    (m : MidiMessageArray) : (muteStep tms sp m).2.events = m.events := by
  cases tms with
  | none => rfl
  | some t =>
    by_cases h1 : t.shouldTrackContentsBeProcessed <;>
      by_cases h2 : t.wasJustMuted <;> simp [muteStep, h1, h2]

theorem muteStep_flag (tms : Option TrackMuteState) (sp : Bool)
    (m : MidiMessageArray) :
    (muteStep tms sp m).2.isAllNotesOff
      = (m.isAllNotesOff || muteEdgeCondition tms) := by
  cases tms with
  | none => simp [muteStep, muteEdgeCondition]
  | some t =>
    by_cases h1 : t.shouldTrackContentsBeProcessed <;>
      by_cases h2 : t.wasJustMuted <;> simp [muteStep, muteEdgeCondition, h1, h2]

theorem prepareToPlay_playHeadState (n : ModifierNode) (up : NodeProperties) :
    (prepareToPlay n up).playHeadState = n.playHeadState := by
  unfold prepareToPlay
  split <;> rfl

theorem prepareToPlay_provider (n : ModifierNode) (up : NodeProperties) :
    (prepareToPlay n up).audioRenderContextProvider
      = n.audioRenderContextProvider := by
  unfold prepareToPlay
  split <;> rfl

theorem prepareToPlay_sampleRate (n : ModifierNode) (up : NodeProperties) :
    (prepareToPlay n up).sampleRate = n.sampleRate := by
  unfold prepareToPlay
  split <;> rfl

theorem modeB_context_eq (n : ModifierNode) (phs : PlayHeadState)
    (m : MidiMessageArray) (r : ℤ) (dest : AudioBuffer)
    (hprov : n.audioRenderContextProvider = none)
    (hphs : n.playHeadState = some phs) :
    getPluginRenderContext n m r dest
      = { destBuffer := dest
          destBufferChannels := dest.length
          bufferStartSample := 0
          bufferNumSamples := numFrames dest
          bufferForMidiMessages := m
          midiBufferOffset := 0
          editTime :=
            sampleToTime
              (phs.playHead.referenceSamplePositionToTimelinePosition r)
              n.sampleRate + n.automationAdjustmentTime
          isPlaying := phs.playHead.isPlaying
          isScrubbing := phs.playHead.isUserDragging
          isRendering := n.isRendering
          allowBypassedProcessing := false } := by
  unfold getPluginRenderContext
  rw [hprov, hphs]

/-! The claims. -/

/-- Claim C1: in a `process` call where `shouldProcess` is false (the
unit's enable parameter is off) and no mute-state policy is attached, the
published audio equals the upstream audio copied through to the
destination channel count, and the published MIDI list is exactly the
staged scratch list: its events always equal the upstream events, and the
whole array equals the upstream array whenever the playhead did not just
jump.  Skipping apply is pass-through, not silence. -/
theorem process_skip_is_pass_through (n : ModifierNode) (ins : ProcessInputs)
    (pc : ProcessContext) (hmute : n.trackMuteState = none)
    (henabled : n.modifier.enabled = false) :
    process n ins pc
      = (copyThrough ins.audio pc.outputAudio, stagedMidi n ins.midi)
    ∧ (process n ins pc).1.length = pc.outputAudio.length
    ∧ (stagedMidi n ins.midi).events = ins.midi.events
    ∧ ((∀ p, n.playHeadState = some p → p.didPlayheadJump = false) →
        stagedMidi n ins.midi = ins.midi) := by
  have hsp : finalShouldProcess n ins.midi = false := by
    unfold finalShouldProcess
    rw [hmute]
    simp [muteStep, henabled]
  have hproc : process n ins pc
      = (copyThrough ins.audio pc.outputAudio, stagedMidi n ins.midi) := by
    simp [process, hsp]
  refine ⟨hproc, ?_, ?_, ?_⟩
  · rw [hproc]
    exact copyThrough_length _ _
  · unfold stagedMidi
    rw [muteStep_events, jumpStep_events]
  · intro hnj
    unfold stagedMidi
    rw [hmute, jumpStep_no_jump n.playHeadState ins.midi hnj]
    rfl

/-- Concrete run of `process_skip_is_pass_through`: a disabled unit, one
upstream channel, two destination channels. -/
theorem process_skip_is_pass_through_witness :
    skipNode.trackMuteState = none
    ∧ skipNode.modifier.enabled = false
    ∧ process skipNode ⟨[[1, 2]], ⟨[3], false⟩⟩ ⟨0, [[5, 6], [9, 9]], ⟨[], false⟩⟩
        = ([[1, 2], [9, 9]], ⟨[3], false⟩) := by
  refine ⟨rfl, rfl, ?_⟩
  have h := process_skip_is_pass_through skipNode ⟨[[1, 2]], ⟨[3], false⟩⟩
      ⟨0, [[5, 6], [9, 9]], ⟨[], false⟩⟩ rfl rfl
  rw [h.1]
  rfl

/-- Claim C2: `getNodeProperties` widens the upstream properties by the
unit's port counts, ORs the audio/MIDI presence flags with the unit's port
availability, and takes the node identity from the unit; the embedding is
a pure function of the node, matching the side-effect-free source. -/
theorem getNodeProperties_aggregation (n : ModifierNode)
    (upstream : NodeProperties) :
    (getNodeProperties n upstream).numberOfChannels
        = max upstream.numberOfChannels (n.modifier.audioInputNamesSize : ℤ)
    ∧ (getNodeProperties n upstream).hasAudio
        = (upstream.hasAudio || decide (0 < n.modifier.audioInputNamesSize))
    ∧ (getNodeProperties n upstream).hasMidi
        = (upstream.hasMidi || decide (0 < n.modifier.midiInputNamesSize))
    ∧ (getNodeProperties n upstream).nodeID = n.modifier.itemID
    ∧ (getNodeProperties n upstream).latencyNumSamples
        = upstream.latencyNumSamples :=
  ⟨rfl, rfl, rfl, rfl, rfl⟩

/-- Claim C9: the copy-through step copies exactly
`min(upstreamChannels, destinationChannels)` channels; destination
channels at or beyond that count keep their previous contents, and when
the minimum is zero the destination is returned unchanged. -/
theorem copyThrough_copies_min_channels (ins outs : AudioBuffer) :
    (copyThrough ins outs).length = outs.length
    ∧ (∀ i, i < min ins.length outs.length →
        (copyThrough ins outs).getD i [] = ins.getD i [])
    ∧ (∀ i, min ins.length outs.length ≤ i →
        (copyThrough ins outs).getD i [] = outs.getD i [])
    ∧ (min ins.length outs.length = 0 → copyThrough ins outs = outs) :=
  ⟨copyThrough_length ins outs,
   fun i h => copyThrough_getD_lt ins outs i h,
   fun i h => copyThrough_getD_ge ins outs i h,
   fun h => copyThrough_zero ins outs h⟩

/-- Concrete run of `copyThrough_copies_min_channels`: two upstream
channels into three destination channels, and an empty upstream. -/
theorem copyThrough_copies_min_channels_witness :
    (copyThrough [[1], [2]] [[5], [6], [7]]).getD 1 [] = [2]
    ∧ (copyThrough [[1], [2]] [[5], [6], [7]]).getD 2 [] = [7]
    ∧ copyThrough [] [[5]] = [[5]] := by
  refine ⟨?_, ?_, ?_⟩
  · exact (copyThrough_copies_min_channels [[1], [2]] [[5], [6], [7]]).2.1 1
      (by decide)
  · exact (copyThrough_copies_min_channels [[1], [2]] [[5], [6], [7]]).2.2.1 2
      (by decide)
  · exact (copyThrough_copies_min_channels [] [[5]]).2.2.2 (by decide)

/-- Claim C3 as stated is false: `prepareToPlay` back-dates automation by
the aggregated node-properties latency, which `getNodeProperties` passes
through from the upstream node untouched; the effect unit's own reported
latency never enters.  `latencyNode` hosts a unit reporting 5 samples of
latency while the upstream reports 3, at sample rate 2: the adjustment is
−3/2, not −5/2. -/
theorem prepare_latency_counterexample :
    latencyNode.modifier.latencySamples = 5
    ∧ (0 : ℤ) < 5
    ∧ latencyNode.sampleRate = 2
    ∧ upstreamWithLatency.latencyNumSamples = 3
    ∧ (prepareToPlay latencyNode upstreamWithLatency).automationAdjustmentTime
        = -((3 : ℚ) / 2)
    ∧ ¬ ((prepareToPlay latencyNode upstreamWithLatency).automationAdjustmentTime
        = -((5 : ℚ) / 2)) := by
  have hval : (prepareToPlay latencyNode upstreamWithLatency).automationAdjustmentTime
      = -((3 : ℚ) / 2) := by
    norm_num [prepareToPlay, getNodeProperties, sampleToTime, latencyNode,
      upstreamWithLatency]
  refine ⟨rfl, by decide, rfl, rfl, hval, ?_⟩
  rw [hval]
  norm_num

/-- Claim C3 (amended): after prepare, when the aggregated node-properties
latency — taken from the upstream node's properties — is L samples with
L > 0, `automationAdjustmentTime` equals −L/sampleRate, and the mode-B
playback time position equals the mapped timeline position in seconds
minus L/sampleRate. -/
theorem prepare_latency_adjustment (n : ModifierNode) (up : NodeProperties)
    (L : ℤ) (hL : up.latencyNumSamples = L) (hpos : 0 < L)
    (phs : PlayHeadState) (hprov : n.audioRenderContextProvider = none)
    (hphs : n.playHeadState = some phs) (m : MidiMessageArray) (r : ℤ)
    (dest : AudioBuffer) :
    (prepareToPlay n up).automationAdjustmentTime = -((L : ℚ) / n.sampleRate)
    ∧ (getPluginRenderContext (prepareToPlay n up) m r dest).editTime
        = (phs.playHead.referenceSamplePositionToTimelinePosition r : ℚ)
            / n.sampleRate - (L : ℚ) / n.sampleRate := by
  have hlat : (getNodeProperties n up).latencyNumSamples = L := hL
  have hadj : (prepareToPlay n up).automationAdjustmentTime
      = -((L : ℚ) / n.sampleRate) := by
    unfold prepareToPlay
    rw [hlat, if_pos hpos]
    simp [sampleToTime]
  refine ⟨hadj, ?_⟩
  calc (getPluginRenderContext (prepareToPlay n up) m r dest).editTime
      = sampleToTime (phs.playHead.referenceSamplePositionToTimelinePosition r)
          (prepareToPlay n up).sampleRate
        + (prepareToPlay n up).automationAdjustmentTime := by
        rw [modeB_context_eq (prepareToPlay n up) phs m r dest
          (by rw [prepareToPlay_provider]; exact hprov)
          (by rw [prepareToPlay_playHeadState]; exact hphs)]
    _ = (phs.playHead.referenceSamplePositionToTimelinePosition r : ℚ)
          / n.sampleRate - (L : ℚ) / n.sampleRate := by
        rw [prepareToPlay_sampleRate, hadj]
        simp only [sampleToTime]
        ring

/-- Concrete run of `prepare_latency_adjustment`: upstream latency 3,
sample rate 2, reference sample 4 mapping to timeline sample 4. -/
theorem prepare_latency_adjustment_witness :
    upstreamWithLatency.latencyNumSamples = 3
    ∧ (0 : ℤ) < 3
    ∧ (prepareToPlay latencyNode upstreamWithLatency).automationAdjustmentTime
        = -((3 : ℚ) / 2)
    ∧ (getPluginRenderContext (prepareToPlay latencyNode upstreamWithLatency)
        ⟨[], false⟩ 4 [[0, 0]]).editTime = (1 : ℚ) / 2 := by
  have h := prepare_latency_adjustment latencyNode upstreamWithLatency 3 rfl
      (by decide) stillPlayHeadState rfl rfl ⟨[], false⟩ 4 [[0, 0]]
  refine ⟨rfl, by decide, ?_, ?_⟩
  · exact h.1
  · rw [h.2]
    norm_num [stillPlayHeadState, idPlayHead, latencyNode]

/-- Claim C4 as stated is false on its second half: in the source the
destructor deinitialises exactly when the unit does *not* need
initialising, i.e. `needsInitialising() == false` means the unit is still
initialised and deinitialise IS called; a unit already deinitialised by
its owner reports `needsInitialising() == true`.  Here a node whose unit
reports false gets exactly one deinitialise call, refuting "does not call
deinitialize". -/
theorem destructor_deinit_counterexample :
    (construct1 latencyModifier 1 none stillPlayHeadState
        false).modifier.baseClassNeedsInitialising = false
    ∧ (construct1 latencyModifier 1 none stillPlayHeadState
        false).isInitialised = true
    ∧ ¬ (deinitialiseCallCount
        (construct1 latencyModifier 1 none stillPlayHeadState false) = 0) := by
  refine ⟨rfl, rfl, by decide⟩

/-- Claim C4 (amended): destroying a constructed node whose unit is still
initialised (`needsInitialising() == false`) invokes deinitialise exactly
once — the destructor being the only call site — while destroying a node
whose unit reports `needsInitialising() == true` (already deinitialised by
its owner) does not call deinitialise again. -/
theorem destructor_deinitialises_once (mod : Modifier) (sr : ℚ)
    (tms : Option TrackMuteState) (phs : PlayHeadState) (rendering : Bool) :
    (construct1 mod sr tms phs rendering).isInitialised = true
    ∧ (mod.baseClassNeedsInitialising = false →
        deinitialiseCallCount (construct1 mod sr tms phs rendering) = 1)
    ∧ (mod.baseClassNeedsInitialising = true →
        deinitialiseCallCount (construct1 mod sr tms phs rendering) = 0)
    ∧ (∀ ctx : PluginRenderContext,
        (construct2 mod sr ctx).isInitialised = true
        ∧ (mod.baseClassNeedsInitialising = false →
            deinitialiseCallCount (construct2 mod sr ctx) = 1)
        ∧ (mod.baseClassNeedsInitialising = true →
            deinitialiseCallCount (construct2 mod sr ctx) = 0)) := by
  refine ⟨rfl, ?_, ?_, fun ctx => ⟨rfl, ?_, ?_⟩⟩ <;>
    intro h <;>
      simp [deinitialiseCallCount, destructorCallsDeinitialise, construct1,
        construct2, initialiseModifier, h]

/-- Concrete run of `destructor_deinitialises_once`: a still-initialised
unit is deinitialised once; an already-deinitialised unit is left alone. -/
theorem destructor_deinitialises_once_witness :
    latencyModifier.baseClassNeedsInitialising = false
    ∧ deinitialiseCallCount
        (construct1 latencyModifier 1 none stillPlayHeadState false) = 1
    ∧ deinitialisedModifier.baseClassNeedsInitialising = true
    ∧ deinitialiseCallCount
        (construct1 deinitialisedModifier 1 none stillPlayHeadState false) = 0 := by
  refine ⟨rfl, ?_, rfl, ?_⟩
  · exact (destructor_deinitialises_once latencyModifier 1 none
      stillPlayHeadState false).2.1 rfl
  · exact (destructor_deinitialises_once deinitialisedModifier 1 none
      stillPlayHeadState false).2.2.1 rfl

/-- Claim C5 as stated is false: the jump rule sets the flag on the
scratch list *before* the apply decision, but when `shouldProcess` is true
the unit's `apply` receives a pointer to that list and the node publishes
whatever `apply` left there.  `jumpNode` hosts an enabled unit whose apply
clears the flag: the playhead just jumped, yet the published list's
all-notes-off flag is not set. -/
theorem jump_allNotesOff_counterexample :
    jumpNode.playHeadState = some jumpedPlayHeadState
    ∧ jumpedPlayHeadState.didPlayheadJump = true
    ∧ ¬ ((process jumpNode ⟨[[1]], ⟨[2], false⟩⟩
          ⟨0, [[0]], ⟨[], false⟩⟩).2.isAllNotesOff = true) := by
  refine ⟨rfl, rfl, ?_⟩
  intro h
  rw [show (process jumpNode ⟨[[1]], ⟨[2], false⟩⟩
      ⟨0, [[0]], ⟨[], false⟩⟩).2.isAllNotesOff = false from rfl] at h
  exact Bool.false_ne_true h

/-- Claim C5 (amended): on a block where the playhead just jumped, the
scratch MIDI list staged past the jump and mute steps has its
all-notes-off flag set regardless of `shouldProcess`; whenever
`shouldProcess` is false that staged list is published verbatim, flag set
— when `shouldProcess` is true the unit's `apply` may rewrite the list it
is handed before publication. -/
theorem jump_forces_staged_allNotesOff (n : ModifierNode) (ins : ProcessInputs)
    (pc : ProcessContext) (phs : PlayHeadState)
    (hphs : n.playHeadState = some phs) (hjump : phs.didPlayheadJump = true) :
    (stagedMidi n ins.midi).isAllNotesOff = true
    ∧ (finalShouldProcess n ins.midi = false →
        (process n ins pc).2 = stagedMidi n ins.midi
        ∧ (process n ins pc).2.isAllNotesOff = true) := by
  have hstaged : (stagedMidi n ins.midi).isAllNotesOff = true := by
    unfold stagedMidi
    rw [muteStep_flag, jumpStep_flag, hphs]
    simp [hjump]
  refine ⟨hstaged, fun hsp => ?_⟩
  have hproc : (process n ins pc).2 = stagedMidi n ins.midi := by
    simp [process, hsp]
  exact ⟨hproc, by rw [hproc]; exact hstaged⟩

/-- Concrete run of `jump_forces_staged_allNotesOff`: the same jumped
playhead but a disabled unit — the published list carries the flag. -/
theorem jump_forces_staged_allNotesOff_witness :
    jumpNodeDisabled.playHeadState = some jumpedPlayHeadState
    ∧ jumpedPlayHeadState.didPlayheadJump = true
    ∧ finalShouldProcess jumpNodeDisabled ⟨[2], false⟩ = false
    ∧ (process jumpNodeDisabled ⟨[[1]], ⟨[2], false⟩⟩
        ⟨0, [[0]], ⟨[], false⟩⟩).2.isAllNotesOff = true := by
  have h := jump_forces_staged_allNotesOff jumpNodeDisabled
      ⟨[[1]], ⟨[2], false⟩⟩ ⟨0, [[0]], ⟨[], false⟩⟩ jumpedPlayHeadState rfl rfl
  exact ⟨rfl, rfl, rfl, (h.2 rfl).2⟩

/-- Claim C6: across three blocks of a mute-state policy that transitions
to muted at block N (`wasJustMuted` true, contents-processing false) and
stays muted through N+1 and N+2 (`wasJustMuted` false, contents-processing
false), with no playhead jump and an upstream list whose flag is clear,
the node forces the staged all-notes-off flag at block N only: at N+1 and
N+2 the staged flag stays false. -/
theorem mute_edge_forces_flag_once (nN nN1 nN2 : ModifierNode)
    (tmsN tmsN1 tmsN2 : TrackMuteState) (m : MidiMessageArray)
    (hj0 : ∀ p, nN.playHeadState = some p → p.didPlayheadJump = false)
    (hj1 : ∀ p, nN1.playHeadState = some p → p.didPlayheadJump = false)
    (hj2 : ∀ p, nN2.playHeadState = some p → p.didPlayheadJump = false)
    (ht0 : nN.trackMuteState = some tmsN)
    (ht1 : nN1.trackMuteState = some tmsN1)
    (ht2 : nN2.trackMuteState = some tmsN2)
    (hm : m.isAllNotesOff = false)
    (hNc : tmsN.shouldTrackContentsBeProcessed = false)
    (hNe : tmsN.wasJustMuted = true)
    (h1c : tmsN1.shouldTrackContentsBeProcessed = false)
    (h1e : tmsN1.wasJustMuted = false)
    (h2c : tmsN2.shouldTrackContentsBeProcessed = false)
    (h2e : tmsN2.wasJustMuted = false) :
    (stagedMidi nN m).isAllNotesOff = true
    ∧ (stagedMidi nN1 m).isAllNotesOff = false
    ∧ (stagedMidi nN2 m).isAllNotesOff = false := by
  have key : ∀ (n : ModifierNode) (t : TrackMuteState),
      n.trackMuteState = some t →
      (∀ p, n.playHeadState = some p → p.didPlayheadJump = false) →
      (stagedMidi n m).isAllNotesOff
        = (m.isAllNotesOff
            || (!t.shouldTrackContentsBeProcessed && t.wasJustMuted)) := by
    intro n t ht hj
    unfold stagedMidi
    rw [muteStep_flag, jumpStep_no_jump _ _ hj, ht]
    rfl
  refine ⟨?_, ?_, ?_⟩
  · rw [key nN tmsN ht0 hj0, hNc, hNe, hm]
    rfl
  · rw [key nN1 tmsN1 ht1 hj1, h1c, h1e, hm]
    rfl
  · rw [key nN2 tmsN2 ht2 hj2, h2c, h2e, hm]
    rfl

/-- Concrete run of `mute_edge_forces_flag_once`: the muting-block policy
and the held policy for the two following blocks. -/
theorem mute_edge_forces_flag_once_witness :
    mutedNodeN.trackMuteState = some mutingState
    ∧ mutingState.wasJustMuted = true
    ∧ heldMuteState.wasJustMuted = false
    ∧ (stagedMidi mutedNodeN ⟨[1], false⟩).isAllNotesOff = true
    ∧ (stagedMidi mutedNodeN1 ⟨[1], false⟩).isAllNotesOff = false := by
  have hnone : mutedNodeN.playHeadState = none := rfl
  have hnone1 : mutedNodeN1.playHeadState = none := rfl
  have h := mute_edge_forces_flag_once mutedNodeN mutedNodeN1 mutedNodeN1
      mutingState heldMuteState heldMuteState ⟨[1], false⟩
      (by intro p hp; rw [hnone] at hp; exact Option.noConfusion hp)
      (by intro p hp; rw [hnone1] at hp; exact Option.noConfusion hp)
      (by intro p hp; rw [hnone1] at hp; exact Option.noConfusion hp)
      rfl rfl rfl rfl rfl rfl rfl rfl rfl rfl
  exact ⟨rfl, rfl, rfl, h.1, h.2.1⟩

/-- Claim C7: in mode B (playhead attached, no provider) the render
context takes its playback time from the playhead's timeline mapping in
seconds plus the automation adjustment, playing/scrubbing state from the
playhead, the offline-render flag from the node's construction-time
rendering flag, and fixes the extra flag false; the mode-B constructor
attaches exactly the given playhead and rendering flag. -/
theorem renderContext_playhead_mode (n : ModifierNode) (phs : PlayHeadState)
    (m : MidiMessageArray) (r : ℤ) (dest : AudioBuffer)
    (hprov : n.audioRenderContextProvider = none)
    (hphs : n.playHeadState = some phs) :
    (getPluginRenderContext n m r dest).editTime
        = sampleToTime
            (phs.playHead.referenceSamplePositionToTimelinePosition r)
            n.sampleRate + n.automationAdjustmentTime
    ∧ (getPluginRenderContext n m r dest).isPlaying = phs.playHead.isPlaying
    ∧ (getPluginRenderContext n m r dest).isScrubbing
        = phs.playHead.isUserDragging
    ∧ (getPluginRenderContext n m r dest).isRendering = n.isRendering
    ∧ (getPluginRenderContext n m r dest).allowBypassedProcessing = false
    ∧ (∀ (mod : Modifier) (sr : ℚ) (tms : Option TrackMuteState)
        (p : PlayHeadState) (rendering : Bool),
        (construct1 mod sr tms p rendering).playHeadState = some p
        ∧ (construct1 mod sr tms p rendering).audioRenderContextProvider = none
        ∧ (construct1 mod sr tms p rendering).isRendering = rendering) := by
  rw [modeB_context_eq n phs m r dest hprov hphs]
  exact ⟨rfl, rfl, rfl, rfl, rfl, fun mod sr tms p rendering => ⟨rfl, rfl, rfl⟩⟩

/-- Concrete run of `renderContext_playhead_mode`: identity timeline
mapping at reference sample 6 and sample rate 2 gives playback time 3. -/
theorem renderContext_playhead_mode_witness :
    latencyNode.audioRenderContextProvider = none
    ∧ latencyNode.playHeadState = some stillPlayHeadState
    ∧ (getPluginRenderContext latencyNode ⟨[], false⟩ 6 [[0, 0]]).editTime
        = (3 : ℚ)
    ∧ (getPluginRenderContext latencyNode ⟨[], false⟩ 6 [[0, 0]]).isRendering
        = true := by
  have h := renderContext_playhead_mode latencyNode stillPlayHeadState
      ⟨[], false⟩ 6 [[0, 0]] rfl rfl
  refine ⟨rfl, rfl, ?_, ?_⟩
  · rw [h.1]
    norm_num [sampleToTime, stillPlayHeadState, idPlayHead, latencyNode]
  · rw [h.2.2.2.1]
    rfl

/-- Claim C8: in mode A (provider attached) the render context is the
provider's context with exactly the destination buffer, start sample 0,
the destination's frame count, the node's scratch MIDI list and MIDI
offset 0.0 overwritten; every other field — channel layout, playback time,
playing, scrubbing, rendering and the extra flag — is the provider's,
unchanged. -/
theorem renderContext_provider_mode (n : ModifierNode)
    (ctx : PluginRenderContext) (m : MidiMessageArray) (r : ℤ)
    (dest : AudioBuffer) (hprov : n.audioRenderContextProvider = some ctx) :
    getPluginRenderContext n m r dest
      = { ctx with
          destBuffer := dest
          bufferStartSample := 0
          bufferNumSamples := numFrames dest
          bufferForMidiMessages := m
          midiBufferOffset := 0 }
    ∧ (getPluginRenderContext n m r dest).destBufferChannels
        = ctx.destBufferChannels
    ∧ (getPluginRenderContext n m r dest).editTime = ctx.editTime
    ∧ (getPluginRenderContext n m r dest).isPlaying = ctx.isPlaying
    ∧ (getPluginRenderContext n m r dest).isScrubbing = ctx.isScrubbing
    ∧ (getPluginRenderContext n m r dest).isRendering = ctx.isRendering
    ∧ (getPluginRenderContext n m r dest).allowBypassedProcessing
        = ctx.allowBypassedProcessing := by
  have he : getPluginRenderContext n m r dest
      = { ctx with
          destBuffer := dest
          bufferStartSample := 0
          bufferNumSamples := numFrames dest
          bufferForMidiMessages := m
          midiBufferOffset := 0 } := by
    unfold getPluginRenderContext
    rw [hprov]
  exact ⟨he, by rw [he], by rw [he], by rw [he], by rw [he], by rw [he],
    by rw [he]⟩

/-- Concrete run of `renderContext_provider_mode` on `providerNode`. -/
theorem renderContext_provider_mode_witness :
    providerNode.audioRenderContextProvider = some providerContext
    ∧ (getPluginRenderContext providerNode ⟨[4], false⟩ 9
        [[1, 2], [3, 4]]).destBuffer = [[1, 2], [3, 4]]
    ∧ (getPluginRenderContext providerNode ⟨[4], false⟩ 9
        [[1, 2], [3, 4]]).bufferNumSamples = 2
    ∧ (getPluginRenderContext providerNode ⟨[4], false⟩ 9
        [[1, 2], [3, 4]]).bufferStartSample = 0
    ∧ (getPluginRenderContext providerNode ⟨[4], false⟩ 9
        [[1, 2], [3, 4]]).editTime = 8 := by
  have h := renderContext_provider_mode providerNode providerContext
      ⟨[4], false⟩ 9 [[1, 2], [3, 4]] rfl
  refine ⟨rfl, ?_, ?_, ?_, ?_⟩
  · rw [h.1]
  · rw [h.1]
    rfl
  · rw [h.1]
  · rw [h.2.2.1]
    rfl

/-- Claim C10: a node built with the alternate context provider has a null
playhead-state pointer, which `prepareToPlay` preserves (and `process`
never writes); with a null playhead state the jump step is the identity,
so the staged all-notes-off flag can become true only when it was already
set upstream or the mute-edge condition holds — and exactly then. -/
theorem provider_mode_never_jump_rule (mod : Modifier) (sr : ℚ)
    (ctx : PluginRenderContext) :
    (construct2 mod sr ctx).playHeadState = none
    ∧ (∀ up, (prepareToPlay (construct2 mod sr ctx) up).playHeadState = none)
    ∧ (∀ (n : ModifierNode) (m : MidiMessageArray), n.playHeadState = none →
        jumpStep n.playHeadState m = m
        ∧ (stagedMidi n m).isAllNotesOff
            = (m.isAllNotesOff || muteEdgeCondition n.trackMuteState)
        ∧ ((stagedMidi n m).isAllNotesOff = true →
            m.isAllNotesOff = true
            ∨ muteEdgeCondition n.trackMuteState = true)) := by
  refine ⟨rfl, ?_, ?_⟩
  · intro up
    rw [prepareToPlay_playHeadState]
    rfl
  · intro n m hn
    have hj : jumpStep n.playHeadState m = m := by
      rw [hn]
      rfl
    have hflag : (stagedMidi n m).isAllNotesOff
        = (m.isAllNotesOff || muteEdgeCondition n.trackMuteState) := by
      unfold stagedMidi
      rw [hj, muteStep_flag]
    refine ⟨hj, hflag, ?_⟩
    intro ht
    rw [hflag] at ht
    simp only [Bool.or_eq_true] at ht
    exact ht

/-- Concrete run of `provider_mode_never_jump_rule` on `providerNode`. -/
theorem provider_mode_never_jump_rule_witness :
    providerNode.playHeadState = none
    ∧ jumpStep providerNode.playHeadState ⟨[5], true⟩ = ⟨[5], true⟩
    ∧ (stagedMidi providerNode ⟨[5], false⟩).isAllNotesOff = false := by
  have h := provider_mode_never_jump_rule latencyModifier 4 providerContext
  refine ⟨h.1, ?_, ?_⟩
  · exact (h.2.2 providerNode ⟨[5], true⟩ rfl).1
  · rw [(h.2.2 providerNode ⟨[5], false⟩ rfl).2.1]
    rfl

end ModifierNodeSpec
